import Mathlib

/-!
# Verification of the CSL wake-up subsystem (OpenThread nRF fork)

Shallow embedding of three components of the CSL wake-up subsystem:

* `WakeupCoordTable` (replay table) — `src/core/thread/wakeup_coord_table.{hpp,cpp}`
* `WakeupTxScheduler` (wake-up burst scheduler) — `src/core/thread/wakeup_tx_scheduler.hpp`
  and its implementation file
* `EnhCslSender` (enhanced CSL sender) — `enh_csl_sender.{hpp,cpp}`

Machine integers are modelled as `Nat` with explicit `% 2^32` where 32-bit
truncation matters.  Fallible or undefined-behaviour paths (null-pointer
dereference, division by zero, failed `OT_ASSERT`) are modelled with `Option`.
Compile-time configuration constants (`OPENTHREAD_CONFIG_*`) that are not fixed
by the sources are taken as parameters of the model functions.
-/

namespace OtModel

/-- The subset of `ot::Error` codes produced by the embedded functions. -/
inductive OtError where
  | ok
  | security
  | noBufs
  deriving DecidableEq, Repr

/-- `ot::Mac::WakeupCoord` (wakeup_coord_table.hpp): one trusted wake-up
coordinator entry.  The 64-bit extended address is a `Nat`. -/
structure WakeupCoord where
  extAddr : Nat
  keySequence : Nat
  frameCounter : Nat
  lastUpdated : Nat
  deriving DecidableEq, Repr

/-- `Array::FindMatching` on the coordinator array: first entry whose extended
address matches (`WakeupCoord::Matches`). -/
def findMatching (addr : Nat) : List WakeupCoord → Option WakeupCoord
  | [] => Option.none
  | c :: cs => if c.extAddr = addr then some c else findMatching addr cs

/-- Index of the first matching entry, used to update it in place. -/
def updateMatching (addr : Nat) (new : WakeupCoord) : List WakeupCoord → List WakeupCoord
  | [] => []
  | c :: cs => if c.extAddr = addr then new :: cs else c :: updateMatching addr new cs

/-- The body of the `for` loop of `WakeupCoordTable::Evict`: starting from
`oldestUpdated = now - kWakeupCoordinatorEvictAge` and no candidate, scan the
entries; an entry strictly older than the running minimum becomes the new
candidate.  Returns the final running minimum and candidate index. -/
def evictScan (cs : List WakeupCoord) (oldestUpdated : Nat) : Option Nat :=
  (cs.foldl
    (fun (acc : Nat × Option Nat × Nat) c =>
      let (best, cand, i) := acc
      if c.lastUpdated < best then (c.lastUpdated, some i, i + 1) else (best, cand, i + 1))
    (oldestUpdated, Option.none, 0)).2.1

/-- Remove the entry at index `i` (the model of `Array::Remove` keeps the
relative order of the remaining entries; no claim depends on the residual
order). -/
def removeAt (i : Nat) : List WakeupCoord → List WakeupCoord
  | [] => []
  | c :: cs => match i with
    | 0 => cs
    | i + 1 => c :: removeAt i cs

/-- `WakeupCoordTable::Evict` (wakeup_coord_table.cpp, lines 92–118).
`evictAge` is the compile-time constant `kWakeupCoordinatorEvictAge`; `now` is
`GetNowInSecs()`.  When `now <= evictAge` nothing is attempted; otherwise the
entry with the smallest `lastUpdated` strictly below `now - evictAge` is
removed, if any. -/
def evict (evictAge now : Nat) (cs : List WakeupCoord) : List WakeupCoord :=
  if now ≤ evictAge then cs
  else
    match evictScan cs (now - evictAge) with
    | Option.none => cs
    | some i => removeAt i cs

/-- `WakeupCoordTable::DetectReplay` (wakeup_coord_table.cpp, lines 45–90).
`cap` is `kMaxWakeupCoords`, `evictAge` is `kWakeupCoordinatorEvictAge`, `now`
is `GetNowInSecs()`; the frame is abstracted to its extended source address,
32-bit key sequence (big-endian key source) and 32-bit frame counter.  Returns
the error code and the table after the call. -/
def detectReplay (cap evictAge now : Nat) (cs : List WakeupCoord)
    (addr ks fc : Nat) : OtError × List WakeupCoord :=
  match findMatching addr cs with
  | some coord =>
    if ks < coord.keySequence then (OtError.security, cs)
    else if ks = coord.keySequence ∧ fc ≤ coord.frameCounter then (OtError.security, cs)
    else (OtError.ok, updateMatching addr ⟨addr, ks, fc, now⟩ cs)
  | Option.none =>
    let cs' := evict evictAge now cs
    if cs'.length < cap then (OtError.ok, cs' ++ [⟨addr, ks, fc, now⟩])
    else (OtError.noBufs, cs')

end OtModel

namespace OtModel

/-- C1 acceptance condition as written in the spec. -/
def acceptCond (eks efc ks fc : Nat) : Prop :=
  ks > eks ∨ (ks = eks ∧ fc > efc)

instance (eks efc ks fc : Nat) : Decidable (acceptCond eks efc ks fc) := by
  unfold acceptCond; infer_instance

/-- Lexicographic order on (key sequence, frame counter) pairs: this is the
order in which `DetectReplay` accepts strictly increasing values. -/
def lexLe (p q : Nat × Nat) : Prop :=
  p.1 < q.1 ∨ (p.1 = q.1 ∧ p.2 ≤ q.2)

instance (p q : Nat × Nat) : Decidable (lexLe p q) := by
  unfold lexLe; infer_instance

/-- Run `DetectReplay` over a trace of frames from a single extended source
address `addr`.  Each trace element is `(now, ks, fc)` where `now` is the value
of `GetNowInSecs()` at that call.  Returns the final table and the list of
accepted `(ks, fc)` pairs, in trace order. -/
def runDetect (cap evictAge addr : Nat) (cs : List WakeupCoord) :
    List (Nat × Nat × Nat) → List WakeupCoord × List (Nat × Nat)
  | [] => (cs, [])
  | (now, ks, fc) :: rest =>
    let step := detectReplay cap evictAge now cs addr ks fc
    let r := runDetect cap evictAge addr step.2 rest
    (r.1, (if step.1 = OtError.ok then [(ks, fc)] else []) ++ r.2)

/-- Modelled from the spec: `kUsPerTenSymbols`, the duration of ten symbol
periods in microseconds, is defined outside the provided sources; the spec
fixes `TEN_SYMBOLS_US = 160`. -/
def kUsPerTenSymbols : Nat := 160

/-- The `while` loop of `EnhCslSender::GetNextCslTransmissionDelay`
(enh_csl_sender.cpp line 302):
`while (nextTxWindow < radioNow + aAheadUs) nextTxWindow += periodInUs;`.
The `0 < p` guard makes the model total; the C loop diverges when the period
is zero, a case the callers reach only through the undefined modulo below. -/
def bumpWindow (target p w : Nat) : Nat :=
  if h : 0 < p ∧ w < target then bumpWindow target p (w + p) else w
termination_by target - w
decreasing_by omega

/-- `EnhCslSender::GetNextCslTransmissionDelay` (enh_csl_sender.cpp, lines
293–307).  Returns `(return value, aDelayFromLastRx)`, both truncated to 32
bits as in the source; `Option.none` models the undefined modulo by zero that
the source performs when `csl_period = 0`. -/
def getNextCslTransmissionDelay (radioNow lastRx period phase aheadUs : Nat) :
    Option (Nat × Nat) :=
  let periodInUs := period * kUsPerTenSymbols
  if periodInUs = 0 then Option.none
  else
    let firstTxWindow := lastRx + phase * kUsPerTenSymbols
    let nextTxWindow := bumpWindow (radioNow + aheadUs) periodInUs
      (radioNow - radioNow % periodInUs + firstTxWindow % periodInUs)
    some ((nextTxWindow - radioNow - aheadUs) % 2 ^ 32,
      ((2 ^ 64 + nextTxWindow - lastRx) % 2 ^ 64) % 2 ^ 32)

/-- `kFramePreparationGuardInterval` (enh_csl_sender.hpp line 582). -/
def kFramePreparationGuardInterval : Nat := 1500

/-- `ot::Message` types distinguished by the CSL sender. -/
inductive MsgType where
  | ip6
  | otherType
  deriving DecidableEq, Repr

/-- `ot::Message` subtypes distinguished by the CSL sender. -/
inductive MsgSubType where
  | mleChildIdRequest
  | otherSubType
  deriving DecidableEq, Repr

/-- The attributes of an `ot::Message` that the CSL sender reads. -/
structure Msg where
  mtype : MsgType
  subType : MsgSubType
  linkSecurityEnabled : Bool
  length : Nat
  directTransmission : Bool
  deriving DecidableEq, Repr

/-- `EnhCslSender::EnhCslPeerInfo` (enh_csl_sender.hpp): the per-neighbor CSL
state that the sender reads and mutates. -/
structure PeerInfo where
  cslTxAttempts : Nat
  cslSynchronized : Bool
  cslMaxTxAttempts : Nat
  cslPeriod : Nat
  cslPhase : Nat
  lastRxTimestamp : Nat
  indirectDsn : Nat
  indirectKeyId : Nat
  indirectFrameCounter : Nat
  indirectMessage : Option Msg
  queuedMessageCount : Nat
  indirectFragmentOffset : Nat
  deriving DecidableEq, Repr

/-- `EnhCslPeerInfo::IsEnhCslSynchronized`: synchronized flag held and a
positive period. -/
def isEnhCslSynchronized (n : PeerInfo) : Bool :=
  n.cslSynchronized && decide (0 < n.cslPeriod)

/-- `EnhCslPeerInfo::GetEnhCslMaxTxAttempts`: the per-peer override when
nonzero, else the compile-time default `kMaxEnhCslTriggeredTxAttempts`
(`OPENTHREAD_CONFIG_MAC_ENH_CSL_TX_ATTEMPTS`, a model parameter). -/
def getEnhCslMaxTxAttempts (defaultMax : Nat) (n : PeerInfo) : Nat :=
  if n.cslMaxTxAttempts ≠ 0 then n.cslMaxTxAttempts else defaultMax

/-- The attributes of a `Mac::TxFrame` that the CSL sender reads or writes. -/
structure TxFrame where
  isRetransmission : Bool
  sequence : Nat
  frameCounter : Nat
  keyId : Nat
  securityEnabled : Bool
  headerUpdated : Bool
  cslIePresent : Bool
  isEmpty : Bool
  txDelay : Nat
  txDelayBaseTime : Nat
  csmaCaEnabled : Bool
  deriving DecidableEq, Repr

/-- State of one `EnhCslSender` together with its single CSL neighbor (the
parent); the model follows the source's single-peer assumption.
`cslTxNeighSet` records whether `mCslTxNeigh` currently points at that
neighbor; the constructor initializes `mCslTxNeigh` to null. -/
structure SenderState where
  neigh : PeerInfo
  cslTxNeighSet : Bool
  cslTxMessage : Option Msg
  ctxNextOffset : Nat
  deriving DecidableEq, Repr

/-- External collaborators of the sender: whether `GetParent()` finds a valid
parent (or a parent candidate with a CSL central present), the mesh
forwarder's send queue, the radio clock, and the configuration values
`mCslFrameRequestAheadUs` and `OPENTHREAD_CONFIG_MAC_ENH_CSL_TX_ATTEMPTS`. -/
structure Env where
  parentPresent : Bool
  sendQueue : List Msg
  radioNow : Nat
  cslFrameRequestAheadUs : Nat
  defaultMaxTxAttempts : Nat
  deriving DecidableEq, Repr

/-- Counters of the side effects reported to external collaborators during one
transmit completion: IP6 tx success/failure counter increments,
`Mle::BecomeDetached` requests, `Mle::RequestShorterChildIdRequest` requests,
and `MeshForwarder::RemoveMessageIfNoPendingTx` calls. -/
structure Effects where
  txSuccessInc : Nat
  txFailureInc : Nat
  detachRequests : Nat
  shorterChildIdRequests : Nat
  removeMessageCalls : Nat
  deriving DecidableEq, Repr

def noEffects : Effects := ⟨0, 0, 0, 0, 0⟩

def addEffects (a b : Effects) : Effects :=
  ⟨a.txSuccessInc + b.txSuccessInc, a.txFailureInc + b.txFailureInc,
    a.detachRequests + b.detachRequests, a.shorterChildIdRequests + b.shorterChildIdRequests,
    a.removeMessageCalls + b.removeMessageCalls⟩

/-- `EnhCslSender::RescheduleCslTx` (enh_csl_sender.cpp, lines 255-291).
Returns the new state and, when a MAC transmission was requested, the
requested delay in milliseconds.  `Option.none` models undefined behaviour:
dereferencing a null `mCslTxNeigh` when `GetParent()` finds no neighbor, or
the modulo by zero inside `GetNextCslTransmissionDelay` when the neighbor's
CSL period is zero. -/
def rescheduleCslTx (env : Env) (s : SenderState) : Option (SenderState × Option Nat) :=
  if ¬ env.parentPresent then Option.none
  else
    let s1 : SenderState := { s with cslTxNeighSet := true }
    if s1.neigh.queuedMessageCount = 0 then some (s1, Option.none)
    else
      let neigh :=
        if s1.neigh.indirectMessage = Option.none then
          match env.sendQueue.find? (fun m => ! m.directTransmission) with
          | some m => { s1.neigh with indirectMessage := some m, indirectFragmentOffset := 0 }
          | Option.none => s1.neigh
        else s1.neigh
      if neigh.indirectMessage = Option.none then
        some ({ s1 with neigh := { neigh with queuedMessageCount := 0 } }, Option.none)
      else
        match getNextCslTransmissionDelay env.radioNow neigh.lastRxTimestamp neigh.cslPeriod
            neigh.cslPhase env.cslFrameRequestAheadUs with
        | Option.none => Option.none
        | some (delay, _) => some ({ s1 with neigh := neigh }, some (delay / 1000))

/-- A `RescheduleCslTx()` call at the end of a completion path: run it, drop
the requested delay, and report the effect counters accumulated so far
(`Option.none` propagates a crash inside `RescheduleCslTx`). -/
def thenReschedule (env : Env) (fx : Effects) (s : SenderState) :
    Option (SenderState × Effects) :=
  match rescheduleCslTx env s with
  | Option.none => Option.none
  | some (s2, _) => some (s2, fx)

/-- `EnhCslSender::HandleSentFrameToNeighbor` (enh_csl_sender.cpp, lines
540-585).  `Option.none` models the failed `OT_ASSERT` on a zero queued
message count, or a crash inside `RescheduleCslTx`. -/
def handleSentFrameToNeighbor (env : Env) (isSuccess : Bool) (ctxNextOffset : Nat)
    (s : SenderState) : Option (SenderState × Effects) :=
  match s.neigh.indirectMessage with
  | some m =>
    if ctxNextOffset < m.length then
      thenReschedule env noEffects
        { s with neigh := { s.neigh with indirectFragmentOffset := ctxNextOffset } }
    else
      if s.neigh.queuedMessageCount = 0 then Option.none
      else
        let n1 := { s.neigh with
            indirectMessage := (Option.none : Option Msg),
            queuedMessageCount := s.neigh.queuedMessageCount - 1 }
        thenReschedule env
          { noEffects with
            txSuccessInc := if m.mtype = MsgType.ip6 ∧ isSuccess then 1 else 0,
            txFailureInc := if m.mtype = MsgType.ip6 ∧ ¬ isSuccess then 1 else 0,
            removeMessageCalls := 1 }
          { s with neigh := n1 }
  | Option.none => thenReschedule env noEffects s

/-- The `kErrorChannelAccessFailure`/`kErrorAbort` arm of the inner
`EnhCslSender::HandleSentFrame` (lines 493-526), also reached from
`kErrorNoAck` when the attempt counter has not reached its maximum: persist
the DSN and, for secure frames with updated headers, the frame counter and key
id; handle the secure fragmentable Child ID Request; reschedule. -/
def cafAbortPath (env : Env) (frame : TxFrame) (isSuccess : Bool) (ctxNextOffset : Nat)
    (s : SenderState) : Option (SenderState × Effects) :=
  let neigh :=
    if ¬ frame.isEmpty then
      let n1 := { s.neigh with indirectDsn := frame.sequence }
      if frame.securityEnabled ∧ frame.headerUpdated then
        { n1 with indirectFrameCounter := frame.frameCounter, indirectKeyId := frame.keyId }
      else n1
    else s.neigh
  let s1 := { s with neigh := neigh }
  match neigh.indirectMessage with
  | Option.none => Option.none
  | some m =>
    if m.mtype = MsgType.ip6 ∧ m.subType = MsgSubType.mleChildIdRequest ∧
        m.linkSecurityEnabled then
      match handleSentFrameToNeighbor env isSuccess ctxNextOffset s1 with
      | Option.none => Option.none
      | some (s2, fx) =>
        thenReschedule env (addEffects fx { noEffects with shorterChildIdRequests := 1 }) s2
    else
      thenReschedule env noEffects s1

/-- Transmit completion statuses handled by `EnhCslSender::HandleSentFrame`;
any other `ot::Error` is a fatal assertion in the source. -/
inductive TxError where
  | success
  | noAck
  | channelAccessFailure
  | abort
  deriving DecidableEq, Repr

/-- The inner `EnhCslSender::HandleSentFrame(aFrame, aError, aNeighbor)`
(enh_csl_sender.cpp, lines 460-538).  `Option.none` models the failed
`OT_ASSERT` on a secure frame without updated header, the null dereference of
`GetIndirectMessage()` in the max-attempts and channel-failure branches, and
crashes in the callees. -/
def handleSentFrameInner (env : Env) (frame : TxFrame) (err : TxError)
    (ctxNextOffset : Nat) (s : SenderState) : Option (SenderState × Effects) :=
  match err with
  | TxError.success =>
    handleSentFrameToNeighbor env true ctxNextOffset
      { s with neigh := { s.neigh with cslTxAttempts := 0 } }
  | TxError.noAck =>
    if frame.securityEnabled ∧ ¬ frame.headerUpdated then Option.none
    else
      let n1 := { s.neigh with cslTxAttempts := s.neigh.cslTxAttempts + 1 }
      if getEnhCslMaxTxAttempts env.defaultMaxTxAttempts n1 ≤ n1.cslTxAttempts then
        let n2 := { n1 with cslSynchronized := false, cslTxAttempts := 0 }
        match n2.indirectMessage with
        | Option.none => Option.none
        | some m =>
          some ({ s with neigh := n2 },
            { noEffects with
              txFailureInc := if m.mtype = MsgType.ip6 then 1 else 0,
              detachRequests := 1,
              removeMessageCalls := 1 })
      else
        cafAbortPath env frame false ctxNextOffset { s with neigh := n1 }
  | TxError.channelAccessFailure => cafAbortPath env frame false ctxNextOffset s
  | TxError.abort => cafAbortPath env frame false ctxNextOffset s

/-- The outer `EnhCslSender::HandleSentFrame(aFrame, aError)` (lines 444-458):
clear `mCslTxMessage`, bail out when `mCslTxNeigh` is already null, otherwise
clear `mCslTxNeigh` and run the inner handler on the neighbor. -/
def handleSentFrame (env : Env) (frame : TxFrame) (err : TxError)
    (s : SenderState) : Option (SenderState × Effects) :=
  if ¬ s.cslTxNeighSet then some ({ s with cslTxMessage := Option.none }, noEffects)
  else
    handleSentFrameInner env frame err s.ctxNextOffset
      { s with cslTxMessage := Option.none, cslTxNeighSet := false }

/-- The retransmission-marking step of `EnhCslSender::HandleFrameRequest`
(lines 395-419).  `OPENTHREAD_CONFIG_MAC_CSL_RECEIVER_ENABLE` is taken as
enabled, so `isCsl` is the frame's CSL-IE-present flag. -/
def markRetransmission (n : PeerInfo) (frame : TxFrame) : TxFrame :=
  if 0 < n.cslTxAttempts then
    let f1 := { frame with isRetransmission := true, sequence := n.indirectDsn }
    if f1.securityEnabled ∧ ¬ f1.cslIePresent then
      { f1 with frameCounter := n.indirectFrameCounter, keyId := n.indirectKeyId }
    else f1
  else { frame with isRetransmission := false }

/-- `EnhCslSender::HandleFrameRequest` (lines 375-433).  The mesh forwarder's
fragment builder invoked by `PrepareFrameForNeighbor` is external to the
provided sources, so the frame content it fills in and the next fragment
offset it reports are oracle inputs `prepared` and `preparedNextOffset`.
Returns the frame handed to MAC (`Option.none` when no frame is produced) and
the updated sender state.  The `getNextCslTransmissionDelay` arm returning
`Option.none` is unreachable here because the synchronization guard ensures a
positive period. -/
def handleFrameRequest (env : Env) (prepared : TxFrame) (preparedNextOffset : Nat)
    (s : SenderState) : Option TxFrame × SenderState :=
  if ¬ s.cslTxNeighSet then (Option.none, s)
  else if ¬ isEnhCslSynchronized s.neigh then (Option.none, s)
  else
    match s.neigh.indirectMessage with
    | Option.none => (Option.none, s)
    | some m =>
      match m.mtype with
      | MsgType.ip6 =>
        let s1 := { s with ctxNextOffset := preparedNextOffset }
        if m.subType = MsgSubType.mleChildIdRequest ∧ m.linkSecurityEnabled then
          ((Option.none : Option TxFrame), { s1 with ctxNextOffset := m.length })
        else
          let s2 := { s1 with cslTxMessage := some m }
          let f1 := markRetransmission s2.neigh prepared
          match getNextCslTransmissionDelay env.radioNow s2.neigh.lastRxTimestamp
              s2.neigh.cslPeriod s2.neigh.cslPhase 0 with
          | Option.none => (Option.none, s2)
          | some (delay, txDelay) =>
            if env.cslFrameRequestAheadUs + kFramePreparationGuardInterval < delay then
              (Option.none, s2)
            else
              (some { f1 with
                  txDelay := txDelay,
                  txDelayBaseTime := s2.neigh.lastRxTimestamp % 2 ^ 32,
                  csmaCaEnabled := false }, s2)
      | MsgType.otherType => (Option.none, s)

/-- `EnhCslSender::AddMessageForCslPeer` (lines 201-213).  The source tests
`mCslTxNeigh->GetIndirectMessage()`; `Option.none` models the null-pointer
dereference when `mCslTxNeigh` is null, as it is after construction.  In this
single-neighbor model `mCslTxNeigh`, when set, points at the same neighbor
record as the `aNeighbor` argument. -/
def addMessageForCslPeer (env : Env) (msg : Msg) (s : SenderState) :
    Option (SenderState × Option Nat) :=
  if ¬ s.cslTxNeighSet then Option.none
  else
    let neigh :=
      if s.neigh.indirectMessage = Option.none then
        { s.neigh with indirectMessage := some msg, indirectFragmentOffset := 0 }
      else s.neigh
    rescheduleCslTx env
      { s with neigh := { neigh with queuedMessageCount := neigh.queuedMessageCount + 1 } }

/-- The `EnhCslSender` constructor (lines 168-174): `mCslTxNeigh` is
initialized to null. -/
def initialSenderState (n : PeerInfo) : SenderState :=
  { neigh := n, cslTxNeighSet := false, cslTxMessage := Option.none, ctxNextOffset := 0 }

/-- The burst state of `WakeupTxScheduler` (wakeup_tx_scheduler.hpp, lines
122-128), with two ghost fields recording the armed timers: one armed timer =
one wake-up frame prepared at that slot time. -/
structure BurstState where
  txTimeUs : Nat
  txEndTimeUs : Nat
  intervalUs : Nat
  txRequestAheadTimeUs : Nat
  sequenceOngoing : Bool
  framesScheduled : Nat
  armedSlots : List Nat
  deriving DecidableEq, Repr

/-- `WakeupTxScheduler::ScheduleNext` (wakeup_tx_scheduler implementation,
lines 355-377): advance `mTxTimeUs` by the interval, clamped to now + ahead,
unless this is the first frame; clear `mSequenceOngoing` when the end time is
reached; otherwise arm the timer for `mTxTimeUs - mTxRequestAheadTimeUs`
(recorded in the ghost fields). -/
def scheduleNext (isFirstFrame : Bool) (nowUs : Nat) (s : BurstState) : BurstState :=
  let t := if isFirstFrame then s.txTimeUs
    else max (s.txTimeUs + s.intervalUs) (nowUs + s.txRequestAheadTimeUs)
  if s.txEndTimeUs ≤ t then
    { s with txTimeUs := t, sequenceOngoing := false }
  else
    { s with
        txTimeUs := t,
        framesScheduled := s.framesScheduled + 1,
        armedSlots := s.armedSlots ++ [t] }

/-- `WakeupTxScheduler::WakeUp` (lines 276-296) from the idle state: set the
burst fields and call `ScheduleNext(true)`. -/
def wakeUp (nowUs aheadUs intervalUs durationMs : Nat) : BurstState :=
  scheduleNext true nowUs
    { txTimeUs := nowUs + aheadUs,
      txEndTimeUs := nowUs + aheadUs + durationMs * 1000 + intervalUs,
      intervalUs := intervalUs,
      txRequestAheadTimeUs := aheadUs,
      sequenceOngoing := true,
      framesScheduled := 0,
      armedSlots := [] }

/-- Drive the burst to completion under the no-slip assumption: each
frame-request callback fires exactly at the armed time
`mTxTimeUs - mTxRequestAheadTimeUs` and immediately calls `ScheduleNext()`,
as `PrepareWakeupFrame` does.  `fuel` bounds the number of callbacks; the
theorems supply enough. -/
def runBurst (fuel : Nat) (s : BurstState) : BurstState :=
  match fuel with
  | 0 => s
  | fuel + 1 =>
    if s.sequenceOngoing then
      runBurst fuel (scheduleNext false (s.txTimeUs - s.txRequestAheadTimeUs) s)
    else s

/-- Frame lengths including SHR (wakeup_tx_scheduler implementation, lines
233-234). -/
def kWakeupFrameLength : Nat := 54

def kParentRequestLength : Nat := 78

/-- Modelled from the spec: `kOctetDuration`, the transmission time of one
octet in microseconds, is defined outside the provided sources.  The spec
fixes `TEN_SYMBOLS_US = 160`, so a symbol lasts 16 µs, and an octet is two
symbols in the 802.15.4 PHY: 32 µs. -/
def kOctetDuration : Nat := 32

/-- The Rendezvous Time IE computation of
`WakeupTxScheduler::PrepareWakeupFrame` (lines 333-335), in 32-bit unsigned
arithmetic: halve the gap left by one wake-up frame and one Parent Request in
an interval, add one interval, divide by ten symbol durations. -/
def rendezvousTimeIe (intervalUs : Nat) : Nat :=
  let r := ((intervalUs + 2 ^ 32 -
    (kWakeupFrameLength + kParentRequestLength) * kOctetDuration) % 2 ^ 32) / 2
  ((r + intervalUs) % 2 ^ 32) / kUsPerTenSymbols

/-- C8's rendezvous formula as the claim words it: the per-length factor is
the symbol duration (16 µs = `kUsPerTenSymbols / 10`). -/
def specRendezvousTimeIe (intervalUs : Nat) : Nat :=
  (intervalUs + (intervalUs -
    (kWakeupFrameLength + kParentRequestLength) * (kUsPerTenSymbols / 10)) / 2) /
    kUsPerTenSymbols

end OtModel

namespace OtModel

theorem bumpWindow_ge (target p w : Nat) (hp : 0 < p) : target ≤ bumpWindow target p w := by
  rw [bumpWindow]
  split
  · exact bumpWindow_ge target p (w + p) hp
  · next h => omega
termination_by target - w
decreasing_by omega

theorem bumpWindow_mod (target p w : Nat) : bumpWindow target p w % p = w % p := by
  rw [bumpWindow]
  split
  · rw [bumpWindow_mod target p (w + p), Nat.add_mod_right]
  · rfl
termination_by target - w
decreasing_by omega

theorem bumpWindow_lt (target p w : Nat) (hw : w < target + p) :
    bumpWindow target p w < target + p := by
  rw [bumpWindow]
  split
  · next h => exact bumpWindow_lt target p (w + p) (by omega)
  · exact hw
termination_by target - w
decreasing_by omega

theorem bumpWindow_of_ge (target p w : Nat) (hw : target ≤ w) :
    bumpWindow target p w = w := by
  rw [bumpWindow]
  split
  · next h => omega
  · rfl

theorem bumpWindow_step (target p w : Nat) (hp : 0 < p) (hw : w < target) :
    bumpWindow target p w = bumpWindow target p (w + p) := by
  rw [bumpWindow]
  split
  · rfl
  · next h => omega

end OtModel

/-- **C1.** For a frame whose extended source address already has an entry in
the replay table, `DetectReplay` returns `Ok` iff
`ks > entry.keySequence ∨ (ks = entry.keySequence ∧ fc > entry.frameCounter)`;
otherwise it returns `Security` and the table is unchanged. -/
theorem c1_detectReplay_present (cap evictAge now : Nat) (cs : List OtModel.WakeupCoord)
    (addr ks fc : Nat) (e : OtModel.WakeupCoord)
    (hfind : OtModel.findMatching addr cs = some e) :
    ((OtModel.detectReplay cap evictAge now cs addr ks fc).1 = OtModel.OtError.ok ↔
      OtModel.acceptCond e.keySequence e.frameCounter ks fc) ∧
    (¬ OtModel.acceptCond e.keySequence e.frameCounter ks fc →
      (OtModel.detectReplay cap evictAge now cs addr ks fc).1 = OtModel.OtError.security ∧
      (OtModel.detectReplay cap evictAge now cs addr ks fc).2 = cs) := by
  unfold OtModel.detectReplay
  rw [hfind]
  unfold OtModel.acceptCond
  constructor
  · constructor
    · intro h
      by_cases h1 : ks < e.keySequence
      · simp [h1] at h
      · by_cases h2 : ks = e.keySequence ∧ fc ≤ e.frameCounter
        · simp [h1, h2] at h
        · push_neg at h2
          rcases Nat.lt_or_ge e.keySequence ks with hgt | hge
          · exact Or.inl hgt
          · have hks : ks = e.keySequence := by omega
            exact Or.inr ⟨hks, h2 hks⟩
    · intro h
      rcases h with h | ⟨hks, hfc⟩
      · have h1 : ¬ ks < e.keySequence := Nat.not_lt.mpr (Nat.le_of_lt h)
        have h2 : ¬ (ks = e.keySequence ∧ fc ≤ e.frameCounter) := by
          intro ⟨hk, _⟩; omega
        simp [h1, h2]
      · have h1 : ¬ ks < e.keySequence := by omega
        have h2 : ¬ (ks = e.keySequence ∧ fc ≤ e.frameCounter) := by
          intro ⟨_, hf⟩; omega
        simp [h1, h2]
  · intro h
    push_neg at h
    obtain ⟨hgt, hif⟩ := h
    by_cases h1 : ks < e.keySequence
    · simp [h1]
    · have hks : ks = e.keySequence := by omega
      have h2 : ks = e.keySequence ∧ fc ≤ e.frameCounter := ⟨hks, by
        have := hif hks; omega⟩
      simp [h1, h2]

namespace OtModel

theorem findMatching_singleton (e : WakeupCoord) (addr : Nat) (he : e.extAddr = addr) :
    findMatching addr [e] = some e := by
  simp [findMatching, he]

/-- Invariant of a single-address trace started from a table holding exactly
the one entry for that address: the table keeps exactly one entry for the
address, its (ks, fc) pair lexicographically dominates the starting pair and
every accepted pair, and it is itself the last accepted pair (or the start if
nothing was accepted). -/
theorem runDetect_from_entry (cap evictAge addr : Nat) (l : List (Nat × Nat × Nat)) :
    ∀ (e : WakeupCoord), e.extAddr = addr →
    ∃ e', (runDetect cap evictAge addr [e] l).1 = [e'] ∧ e'.extAddr = addr ∧
      lexLe (e.keySequence, e.frameCounter) (e'.keySequence, e'.frameCounter) ∧
      (∀ p ∈ (runDetect cap evictAge addr [e] l).2,
        lexLe p (e'.keySequence, e'.frameCounter)) ∧
      ((runDetect cap evictAge addr [e] l).2 = [] → e' = e) ∧
      ((runDetect cap evictAge addr [e] l).2 ≠ [] →
        (e'.keySequence, e'.frameCounter) ∈ (runDetect cap evictAge addr [e] l).2) := by
  induction l with
  | nil =>
    intro e he
    exact ⟨e, rfl, he, Or.inr ⟨rfl, Nat.le_refl _⟩, by simp [runDetect],
      fun _ => rfl, by simp [runDetect]⟩
  | cons u rest ih =>
    intro e he
    obtain ⟨now, ks, fc⟩ := u
    by_cases hacc : ks < e.keySequence ∨ (ks = e.keySequence ∧ fc ≤ e.frameCounter)
    · -- rejected: table unchanged, nothing accepted at this step
      have hstep : detectReplay cap evictAge now [e] addr ks fc = (OtError.security, [e]) := by
        unfold detectReplay
        rw [findMatching_singleton e addr he]
        rcases hacc with h | h
        · simp [h]
        · have h1 : ¬ ks < e.keySequence := by omega
          simp [h1, h]
      obtain ⟨e', h1, h2, h3, h4, h5, h6⟩ := ih e he
      refine ⟨e', ?_, h2, h3, ?_, ?_, ?_⟩
      · simpa [runDetect, hstep] using h1
      · simpa [runDetect, hstep] using h4
      · simpa [runDetect, hstep] using h5
      · simpa [runDetect, hstep] using h6
    · -- accepted: entry overwritten with the frame values
      push_neg at hacc
      have hlt : lexLe (e.keySequence, e.frameCounter) (ks, fc) := by
        obtain ⟨h1, h2⟩ := hacc
        rcases Nat.lt_or_ge e.keySequence ks with hgt | hge
        · exact Or.inl hgt
        · have hks : ks = e.keySequence := by omega
          exact Or.inr ⟨hks.symm, by have := h2 hks; omega⟩
      have hstep : detectReplay cap evictAge now [e] addr ks fc =
          (OtError.ok, [⟨addr, ks, fc, now⟩]) := by
        unfold detectReplay
        rw [findMatching_singleton e addr he]
        have h1 : ¬ ks < e.keySequence := by omega
        have h2 : ¬ (ks = e.keySequence ∧ fc ≤ e.frameCounter) := by
          intro ⟨ha, hb⟩; have := hacc.2 ha; omega
        simp [h1, h2, updateMatching, he]
      obtain ⟨e', h1, h2, h3, h4, h5, h6⟩ := ih ⟨addr, ks, fc, now⟩ rfl
      have hdom : lexLe (e.keySequence, e.frameCounter) (e'.keySequence, e'.frameCounter) := by
        rcases hlt with ha | ⟨ha, hb⟩ <;> rcases h3 with hc | ⟨hc, hd⟩
        · exact Or.inl (by simp at ha hc ⊢; omega)
        · exact Or.inl (by simp at ha hc ⊢; omega)
        · exact Or.inl (by simp at ha hc ⊢; omega)
        · exact Or.inr (by simp at ha hb hc hd ⊢; omega)
      refine ⟨e', ?_, h2, hdom, ?_, ?_, ?_⟩
      · simpa [runDetect, hstep] using h1
      · intro p hp
        simp only [runDetect, hstep] at hp
        simp at hp
        rcases hp with hp | hp
        · subst hp; exact h3
        · exact h4 p hp
      · intro hemp
        simp [runDetect, hstep] at hemp
      · intro _
        simp only [runDetect, hstep]
        by_cases hre : (runDetect cap evictAge addr [(⟨addr, ks, fc, now⟩ : WakeupCoord)] rest).2 = []
        · have := h5 hre
          subst this
          simp
        · have := h6 hre
          simp [this]

end OtModel

/-- **C2 (counterexample).** After accepting (ks = 5, fc = 100) and then
(ks = 6, fc = 0) for one address the stored frame counter is 0, not the
maximum 100 of all accepted frame counters: the stored pair is not the
componentwise maximum of the accepted values. -/
theorem c2_componentwise_max_cex :
    (OtModel.runDetect 1 60 1 [] [(20, 5, 100), (40, 6, 0)]).2 = [(5, 100), (6, 0)] ∧
    (OtModel.runDetect 1 60 1 [] [(20, 5, 100), (40, 6, 0)]).1 =
      [⟨1, 6, 0, 40⟩] ∧
    ¬ ((6 : Nat) = max 5 6 ∧ (0 : Nat) = max 100 0) := by
  refine ⟨by decide, by decide, by decide⟩

/-- **C2 (amended).** For every single-address trace run from an empty table
with positive capacity, if any update was accepted then the table holds exactly
one entry for that address and its stored (key sequence, frame counter) pair is
the *lexicographic* maximum of all accepted pairs: it is one of the accepted
pairs and lexicographically dominates every accepted pair (in particular the
stored key sequence is the maximum of all accepted key sequences, but the
stored frame counter need not be the maximum of all accepted frame counters). -/
theorem c2_stored_is_lex_max (cap evictAge addr : Nat) (hcap : 0 < cap)
    (l : List (Nat × Nat × Nat))
    (hne : (OtModel.runDetect cap evictAge addr [] l).2 ≠ []) :
    ∃ e, (OtModel.runDetect cap evictAge addr [] l).1 = [e] ∧ e.extAddr = addr ∧
      (e.keySequence, e.frameCounter) ∈ (OtModel.runDetect cap evictAge addr [] l).2 ∧
      (∀ p ∈ (OtModel.runDetect cap evictAge addr [] l).2,
        OtModel.lexLe p (e.keySequence, e.frameCounter)) ∧
      (∀ p ∈ (OtModel.runDetect cap evictAge addr [] l).2, p.1 ≤ e.keySequence) := by
  match l with
  | [] => simp [OtModel.runDetect] at hne
  | (now, ks, fc) :: rest =>
    have hstep : OtModel.detectReplay cap evictAge now [] addr ks fc =
        (OtModel.OtError.ok, [⟨addr, ks, fc, now⟩]) := by
      unfold OtModel.detectReplay OtModel.evict OtModel.evictScan
      simp [OtModel.findMatching, hcap]
    obtain ⟨e', h1, h2, _, h4, h5, h6⟩ :=
      OtModel.runDetect_from_entry cap evictAge addr rest ⟨addr, ks, fc, now⟩ rfl
    have hdomHead : OtModel.lexLe (ks, fc) (e'.keySequence, e'.frameCounter) := by
      by_cases hre : (OtModel.runDetect cap evictAge addr
          [(⟨addr, ks, fc, now⟩ : OtModel.WakeupCoord)] rest).2 = []
      · have := h5 hre; subst this; exact Or.inr ⟨rfl, Nat.le_refl _⟩
      · obtain ⟨e'', h1', h2', h3', _⟩ :=
          OtModel.runDetect_from_entry cap evictAge addr rest ⟨addr, ks, fc, now⟩ rfl
        rw [h1'] at h1
        have : e'' = e' := by injection h1
        subst this
        exact h3'
    refine ⟨e', ?_, h2, ?_, ?_, ?_⟩
    · simpa [OtModel.runDetect, hstep] using h1
    · simp only [OtModel.runDetect, hstep]
      by_cases hre : (OtModel.runDetect cap evictAge addr
          [(⟨addr, ks, fc, now⟩ : OtModel.WakeupCoord)] rest).2 = []
      · have := h5 hre; subst this; simp
      · have := h6 hre; simp [this]
    · intro p hp
      simp only [OtModel.runDetect, hstep] at hp
      simp at hp
      rcases hp with hp | hp
      · subst hp; exact hdomHead
      · exact h4 p hp
    · intro p hp
      simp only [OtModel.runDetect, hstep] at hp
      simp at hp
      have hd : OtModel.lexLe p (e'.keySequence, e'.frameCounter) := by
        rcases hp with hp | hp
        · subst hp; exact hdomHead
        · exact h4 p hp
      rcases hd with h | ⟨h, _⟩
      · exact Nat.le_of_lt h
      · exact Nat.le_of_eq h

/-- Witness for C2 (amended): the trace that accepts (5, 100) then (6, 0) with
capacity 1 leaves a single entry whose pair (6, 0) is the lexicographic
maximum of the accepted pairs. -/
theorem c2_stored_is_lex_max_witness :
    (0 : Nat) < 1 ∧
    (OtModel.runDetect 1 60 1 [] [(20, 5, 100), (40, 6, 0)]).2 ≠ [] ∧
    (∃ e, (OtModel.runDetect 1 60 1 [] [(20, 5, 100), (40, 6, 0)]).1 = [e] ∧
      e.extAddr = 1 ∧
      (e.keySequence, e.frameCounter) ∈
        (OtModel.runDetect 1 60 1 [] [(20, 5, 100), (40, 6, 0)]).2 ∧
      (∀ p ∈ (OtModel.runDetect 1 60 1 [] [(20, 5, 100), (40, 6, 0)]).2,
        OtModel.lexLe p (e.keySequence, e.frameCounter)) ∧
      (∀ p ∈ (OtModel.runDetect 1 60 1 [] [(20, 5, 100), (40, 6, 0)]).2,
        p.1 ≤ e.keySequence)) :=
  ⟨by decide, by decide, c2_stored_is_lex_max 1 60 1 (by decide) _ (by decide)⟩

/-- **C6 (code evaluated at the failing input).** `DetectReplay` calls
`Evict()` unconditionally on a table miss, before checking for a free slot:
with capacity 2 and a single entry (addr 1, last updated at second 10), at
second 80 with `kWakeupCoordinatorEvictAge = 60` an insertion for address 2
removes the aged entry for address 1 even though a free slot existed.  This
contradicts the claim (and the header's own documentation) that eviction is
attempted only when the table is full. -/
theorem c6_evict_despite_free_slot :
    ([(⟨1, 5, 10, 10⟩ : OtModel.WakeupCoord)] : List OtModel.WakeupCoord).length < 2 ∧
    (OtModel.detectReplay 2 60 80 [⟨1, 5, 10, 10⟩] 2 1 1).1 = OtModel.OtError.ok ∧
    (OtModel.detectReplay 2 60 80 [⟨1, 5, 10, 10⟩] 2 1 1).2 = [⟨2, 1, 1, 80⟩] ∧
    OtModel.findMatching 1 (OtModel.detectReplay 2 60 80 [⟨1, 5, 10, 10⟩] 2 1 1).2 =
      Option.none := by
  decide

/-- Witness for C1: the S1 scenario.  Capacity 2, stored entry (addr A = 1,
ks = 5, fc = 10).  Frames (5,10), (5,9), (4,9999) are rejected with `Security`
leaving the table unchanged, while (5,11) and (6,0) are accepted. -/
theorem c1_detectReplay_present_witness :
    OtModel.findMatching 1 [⟨1, 5, 10, 0⟩] = some ⟨1, 5, 10, 0⟩ ∧
    (OtModel.detectReplay 2 60 100 [⟨1, 5, 10, 0⟩] 1 5 10).1 = OtModel.OtError.security ∧
    (OtModel.detectReplay 2 60 100 [⟨1, 5, 10, 0⟩] 1 5 10).2 = [⟨1, 5, 10, 0⟩] ∧
    (OtModel.detectReplay 2 60 100 [⟨1, 5, 10, 0⟩] 1 5 9).1 = OtModel.OtError.security ∧
    (OtModel.detectReplay 2 60 100 [⟨1, 5, 10, 0⟩] 1 4 9999).1 = OtModel.OtError.security ∧
    (OtModel.detectReplay 2 60 100 [⟨1, 5, 10, 0⟩] 1 5 11).1 = OtModel.OtError.ok ∧
    (OtModel.detectReplay 2 60 100 [⟨1, 5, 10, 0⟩] 1 6 0).1 = OtModel.OtError.ok := by
  have hfind : OtModel.findMatching 1 [⟨1, 5, 10, 0⟩] = some ⟨1, 5, 10, 0⟩ := by decide
  refine ⟨hfind, ?_, ?_, ?_, ?_, ?_, ?_⟩
  · exact ((c1_detectReplay_present 2 60 100 _ 1 5 10 _ hfind).2 (by decide)).1
  · exact ((c1_detectReplay_present 2 60 100 _ 1 5 10 _ hfind).2 (by decide)).2
  · exact ((c1_detectReplay_present 2 60 100 _ 1 5 9 _ hfind).2 (by decide)).1
  · exact ((c1_detectReplay_present 2 60 100 _ 1 4 9999 _ hfind).2 (by decide)).1
  · exact (c1_detectReplay_present 2 60 100 _ 1 5 11 _ hfind).1.mpr (by decide)
  · exact (c1_detectReplay_present 2 60 100 _ 1 6 0 _ hfind).1.mpr (by decide)

set_option maxRecDepth 4000 in
/-- **C3.** For every peer with `csl_period > 0` (and the 16-bit range of
`mCslPeriod`), the transmit window `t` computed by
`GetNextCslTransmissionDelay` satisfies `t ≡ T₀ (mod P_us)` with
`T₀ = last_rx_timestamp_us + csl_phase·160 µs` and `P_us = csl_period·160 µs`,
and `t ≥ radio_now + ahead_us`; the returned delay is exactly
`t − radio_now − ahead_us`.  Concretely, with `radio_now = 1000000`,
`last_rx = 0`, `period = 500`, `phase = 100`, `ahead = 0` the returned delay
is 56000. -/
theorem c3_next_csl_window (radioNow lastRx period phase aheadUs : Nat)
    (hper : 0 < period) (hper16 : period < 2 ^ 16) :
    (∃ t, OtModel.getNextCslTransmissionDelay radioNow lastRx period phase aheadUs =
        some (t - radioNow - aheadUs, ((2 ^ 64 + t - lastRx) % 2 ^ 64) % 2 ^ 32) ∧
      t % (period * OtModel.kUsPerTenSymbols) =
        (lastRx + phase * OtModel.kUsPerTenSymbols) % (period * OtModel.kUsPerTenSymbols) ∧
      radioNow + aheadUs ≤ t) ∧
    OtModel.getNextCslTransmissionDelay 1000000 0 500 100 0 = some (56000, 1056000) := by
  constructor
  · set P := period * OtModel.kUsPerTenSymbols with hPdef
    have hP : 0 < P := by
      have : (0 : Nat) < OtModel.kUsPerTenSymbols := by norm_num [OtModel.kUsPerTenSymbols]
      exact Nat.mul_pos hper this
    set T0 := lastRx + phase * OtModel.kUsPerTenSymbols with hT0def
    set w0 := radioNow - radioNow % P + T0 % P with hw0def
    set t := OtModel.bumpWindow (radioNow + aheadUs) P w0 with htdef
    refine ⟨t, ?_, ?_, ?_⟩
    · unfold OtModel.getNextCslTransmissionDelay
      rw [if_neg (by omega)]
      have hge : radioNow + aheadUs ≤ t := OtModel.bumpWindow_ge _ _ _ hP
      have hlt : t < radioNow + aheadUs + P := by
        apply OtModel.bumpWindow_lt
        have hm : T0 % P < P := Nat.mod_lt _ hP
        omega
      have hdelta : t - radioNow - aheadUs < 2 ^ 32 := by
        have hPbound : P < 2 ^ 32 := by
          have h160 : OtModel.kUsPerTenSymbols = 160 := rfl
          rw [hPdef, h160]
          omega
        omega
      simp only [← hPdef, ← hT0def, ← hw0def, ← htdef]
      rw [Nat.mod_eq_of_lt hdelta]
    · have h1 : t % P = w0 % P := OtModel.bumpWindow_mod _ _ _
      have h2 : w0 % P = T0 % P := by
        have hsub : radioNow - radioNow % P = P * (radioNow / P) := by
          have := Nat.div_add_mod radioNow P
          omega
        rw [hw0def, hsub, Nat.mul_add_mod, Nat.mod_mod_of_dvd _ (dvd_refl P)]
      rw [h1, h2]
    · exact OtModel.bumpWindow_ge _ _ _ hP
  · have hb : OtModel.bumpWindow 1000000 80000 976000 = 1056000 := by
      rw [OtModel.bumpWindow]
      rw [dif_pos (by norm_num)]
      rw [show (976000 : Nat) + 80000 = 1056000 from by norm_num]
      rw [OtModel.bumpWindow]
      rw [dif_neg (by norm_num)]
    unfold OtModel.getNextCslTransmissionDelay
    simp only []
    rw [show (500 : Nat) * OtModel.kUsPerTenSymbols = 80000 from by
      norm_num [OtModel.kUsPerTenSymbols]]
    rw [if_neg (by norm_num : ¬(80000 : Nat) = 0)]
    rw [show (0 : Nat) + 100 * OtModel.kUsPerTenSymbols = 16000 from by
      norm_num [OtModel.kUsPerTenSymbols]]
    rw [show (1000000 : Nat) - 1000000 % 80000 + 16000 % 80000 = 976000 from by norm_num]
    rw [show (1000000 : Nat) + 0 = 1000000 from by norm_num]
    rw [hb]
    norm_num

/-- Witness for C3 at the S3 inputs: period 500 is positive and below 2^16,
and the theorem instantiates at radio_now = 1000000, last_rx = 0, phase = 100,
ahead = 0. -/
theorem c3_next_csl_window_witness :
    (0 : Nat) < 500 ∧ (500 : Nat) < 2 ^ 16 ∧
    ((∃ t, OtModel.getNextCslTransmissionDelay 1000000 0 500 100 0 =
        some (t - 1000000 - 0, ((2 ^ 64 + t - 0) % 2 ^ 64) % 2 ^ 32) ∧
      t % (500 * OtModel.kUsPerTenSymbols) =
        (0 + 100 * OtModel.kUsPerTenSymbols) % (500 * OtModel.kUsPerTenSymbols) ∧
      1000000 + 0 ≤ t) ∧
    OtModel.getNextCslTransmissionDelay 1000000 0 500 100 0 = some (56000, 1056000)) :=
  ⟨by norm_num, by norm_num,
    c3_next_csl_window 1000000 0 500 100 0 (by norm_num) (by norm_num)⟩

open OtModel in
/-- **C9 (code evaluated at the failing input).** On the very first call to
`AddMessageForCslPeer` after construction the source dereferences
`mCslTxNeigh`, which the constructor initialized to null: the enqueue crashes
instead of adopting the message, incrementing the queued count and
rescheduling as the claim describes.  (The adoption test reads the scheduler's
working neighbor `mCslTxNeigh`, not the passed `aNeighbor`.) -/
theorem c9_first_enqueue_crashes (env : Env) (msg : Msg) (n : PeerInfo) :
    addMessageForCslPeer env msg (initialSenderState n) = Option.none := by
  simp [addMessageForCslPeer, initialSenderState]

open OtModel in
/-- **C10.** `GetNextCslTransmissionDelay` is total exactly under the
precondition `csl_period > 0` (first conjunct); `RescheduleCslTx` guards only
on a positive queued-message count, so on any state with a queued indirect
message and `csl_period = 0` it reaches the modulo by zero (second conjunct);
and such a state is reachable: enqueueing a message for a peer whose CSL
period was never set drives the computation into the modulo by zero (third
conjunct, a concrete run of `AddMessageForCslPeer`). -/
theorem c10_mod_by_zero_reachable :
    (∀ radioNow lastRx period phase aheadUs, 0 < period →
      (getNextCslTransmissionDelay radioNow lastRx period phase aheadUs).isSome = true) ∧
    (∀ (env : Env) (s : SenderState) (m : Msg),
      env.parentPresent = true →
      s.neigh.cslPeriod = 0 →
      s.neigh.queuedMessageCount ≠ 0 →
      s.neigh.indirectMessage = some m →
      rescheduleCslTx env s = Option.none ∧
      getNextCslTransmissionDelay env.radioNow s.neigh.lastRxTimestamp s.neigh.cslPeriod
        s.neigh.cslPhase env.cslFrameRequestAheadUs = Option.none) ∧
    addMessageForCslPeer ⟨true, [], 5000, 2000, 4⟩
      ⟨MsgType.ip6, MsgSubType.otherSubType, false, 100, false⟩
      ⟨⟨0, false, 0, 0, 0, 0, 0, 0, 0, Option.none, 0, 0⟩, true, Option.none, 0⟩ =
      Option.none := by
  refine ⟨?_, ?_, by decide⟩
  · intro radioNow lastRx period phase aheadUs hp
    unfold getNextCslTransmissionDelay
    simp only []
    rw [if_neg (by simp [kUsPerTenSymbols]; omega)]
    rfl
  · intro env s m hpar hper hcount hmsg
    constructor
    · simp only [rescheduleCslTx, hpar, hmsg, hcount]
      simp [getNextCslTransmissionDelay, kUsPerTenSymbols, hper, hcount, hmsg]
    · rw [hper]
      simp [getNextCslTransmissionDelay, kUsPerTenSymbols]

open OtModel in
/-- Witness for C10: the totality conjunct instantiated at period 1, and the
mod-by-zero conjunct instantiated at a state with one queued message, an
adopted indirect message and CSL period 0. -/
theorem c10_mod_by_zero_reachable_witness :
    (OtModel.getNextCslTransmissionDelay 0 0 1 0 0).isSome = true ∧
    (OtModel.rescheduleCslTx ⟨true, [], 5000, 2000, 4⟩
        ⟨⟨0, false, 0, 0, 0, 0, 0, 0, 0,
          some ⟨MsgType.ip6, MsgSubType.otherSubType, false, 100, false⟩, 1, 0⟩,
          true, Option.none, 0⟩ = Option.none ∧
      OtModel.getNextCslTransmissionDelay 5000 0 0 0 2000 = Option.none) :=
  ⟨c10_mod_by_zero_reachable.1 0 0 1 0 0 (by decide),
    c10_mod_by_zero_reachable.2.1 ⟨true, [], 5000, 2000, 4⟩
      ⟨⟨0, false, 0, 0, 0, 0, 0, 0, 0,
        some ⟨MsgType.ip6, MsgSubType.otherSubType, false, 100, false⟩, 1, 0⟩,
        true, Option.none, 0⟩
      ⟨MsgType.ip6, MsgSubType.otherSubType, false, 100, false⟩ rfl rfl (by decide) rfl⟩

open OtModel in
/-- **C5.** A `NoAck` completion that raises the peer's attempt counter to its
per-peer maximum marks the peer unsynchronized, resets the attempt counter,
increments the IP6 TxFailure counter exactly once, releases the in-flight
message (one `RemoveMessageIfNoPendingTx` call) and requests an MLE detach
exactly once, all in that single completion; and a frame-request callback for
an unsynchronized peer returns no frame. -/
theorem c5_max_attempts_detach (env : Env) (frame : TxFrame) (s : SenderState) (m : Msg)
    (hset : s.cslTxNeighSet = true)
    (hsec : frame.securityEnabled = true → frame.headerUpdated = true)
    (hmsg : s.neigh.indirectMessage = some m)
    (hip6 : m.mtype = MsgType.ip6)
    (hmax : getEnhCslMaxTxAttempts env.defaultMaxTxAttempts s.neigh ≤
      s.neigh.cslTxAttempts + 1) :
    handleSentFrame env frame TxError.noAck s =
      some ({ s with
          cslTxMessage := Option.none,
          cslTxNeighSet := false,
          neigh := { s.neigh with cslSynchronized := false, cslTxAttempts := 0 } },
        ⟨0, 1, 1, 0, 1⟩) ∧
    isEnhCslSynchronized { s.neigh with cslSynchronized := false, cslTxAttempts := 0 } =
      false ∧
    (∀ (env2 : Env) (prepared : TxFrame) (off : Nat) (s2 : SenderState),
      s2.neigh.cslSynchronized = false →
      (handleFrameRequest env2 prepared off s2).1 = Option.none) := by
  have hassert : ¬ (frame.securityEnabled = true ∧ ¬ frame.headerUpdated = true) := by
    intro h
    exact h.2 (hsec h.1)
  have hmaxn1 : getEnhCslMaxTxAttempts env.defaultMaxTxAttempts
      { s.neigh with cslTxAttempts := s.neigh.cslTxAttempts + 1 } =
      getEnhCslMaxTxAttempts env.defaultMaxTxAttempts s.neigh := by
    simp [getEnhCslMaxTxAttempts]
  refine ⟨?_, by simp [isEnhCslSynchronized], ?_⟩
  · unfold handleSentFrame handleSentFrameInner
    rw [if_neg (by simp [hset])]
    simp only []
    rw [if_neg hassert]
    simp only [hmaxn1]
    rw [if_pos (by simpa using hmax)]
    simp only [hmsg, hip6]
    simp [noEffects]
  · intro env2 prepared off s2 hsync
    unfold handleFrameRequest
    by_cases hs2 : s2.cslTxNeighSet
    · rw [if_neg (by simp [hs2])]
      rw [if_pos (by simp [isEnhCslSynchronized, hsync])]
    · rw [if_pos (by simp [hs2])]

/-- Witness for C5: the S6 scenario.  Per-peer max 3, attempt counter at 2;
the third `NoAck` marks the peer unsynchronized, zeroes the counter,
increments TxFailure once, removes the message once and requests one detach. -/
theorem c5_max_attempts_detach_witness :
    OtModel.handleSentFrame ⟨true, [], 0, 2000, 4⟩
        ⟨false, 42, 100, 3, true, true, false, false, 0, 0, true⟩
        OtModel.TxError.noAck
        ⟨⟨2, true, 3, 500, 0, 0, 42, 3, 100,
          some ⟨OtModel.MsgType.ip6, OtModel.MsgSubType.otherSubType, true, 50, false⟩, 1, 0⟩,
          true, some ⟨OtModel.MsgType.ip6, OtModel.MsgSubType.otherSubType, true, 50, false⟩,
          0⟩ =
      some (⟨⟨0, false, 3, 500, 0, 0, 42, 3, 100,
          some ⟨OtModel.MsgType.ip6, OtModel.MsgSubType.otherSubType, true, 50, false⟩, 1, 0⟩,
          false, Option.none, 0⟩,
        ⟨0, 1, 1, 0, 1⟩) :=
  (c5_max_attempts_detach ⟨true, [], 0, 2000, 4⟩
    ⟨false, 42, 100, 3, true, true, false, false, 0, 0, true⟩
    ⟨⟨2, true, 3, 500, 0, 0, 42, 3, 100,
      some ⟨OtModel.MsgType.ip6, OtModel.MsgSubType.otherSubType, true, 50, false⟩, 1, 0⟩,
      true, some ⟨OtModel.MsgType.ip6, OtModel.MsgSubType.otherSubType, true, 50, false⟩, 0⟩
    ⟨OtModel.MsgType.ip6, OtModel.MsgSubType.otherSubType, true, 50, false⟩
    rfl (fun _ => rfl) rfl rfl (by decide)).1


namespace OtModel

/-- `RescheduleCslTx` never touches the preserved retransmission values
(DSN, frame counter, key id) of the neighbor. -/
theorem rescheduleCslTx_preserves (env : Env) (s s' : SenderState) (d : Option Nat)
    (h : rescheduleCslTx env s = some (s', d)) :
    s'.neigh.indirectDsn = s.neigh.indirectDsn ∧
    s'.neigh.indirectFrameCounter = s.neigh.indirectFrameCounter ∧
    s'.neigh.indirectKeyId = s.neigh.indirectKeyId := by
  unfold rescheduleCslTx at h
  simp only [] at h
  repeat' split at h
  all_goals
    first
      | (cases h
         all_goals ((repeat' split) <;> simp_all))
      | (simp only [Option.some.injEq, Prod.mk.injEq] at h
         obtain ⟨h1, h2⟩ := h
         subst h1
         (repeat' split) <;> simp_all)

/-- A trailing `RescheduleCslTx` preserves the retransmission values and
returns the effects passed to it. -/
theorem thenReschedule_preserves (env : Env) (fx0 : Effects) (s s' : SenderState)
    (fx : Effects) (h : thenReschedule env fx0 s = some (s', fx)) :
    s'.neigh.indirectDsn = s.neigh.indirectDsn ∧
    s'.neigh.indirectFrameCounter = s.neigh.indirectFrameCounter ∧
    s'.neigh.indirectKeyId = s.neigh.indirectKeyId ∧
    fx = fx0 := by
  unfold thenReschedule at h
  split at h
  · cases h
  · rename_i s2 snd heq
    simp only [Option.some.injEq, Prod.mk.injEq] at h
    obtain ⟨h1, h2⟩ := h
    subst h1
    have hp := rescheduleCslTx_preserves env s s2 snd heq
    exact ⟨hp.1, hp.2.1, hp.2.2, h2.symm⟩

/-- `HandleSentFrameToNeighbor` never touches the preserved retransmission
values of the neighbor. -/
theorem handleSentFrameToNeighbor_preserves (env : Env) (b : Bool) (ctx : Nat)
    (s s' : SenderState) (fx : Effects)
    (h : handleSentFrameToNeighbor env b ctx s = some (s', fx)) :
    s'.neigh.indirectDsn = s.neigh.indirectDsn ∧
    s'.neigh.indirectFrameCounter = s.neigh.indirectFrameCounter ∧
    s'.neigh.indirectKeyId = s.neigh.indirectKeyId := by
  unfold handleSentFrameToNeighbor at h
  split at h
  · split at h
    · have hp := thenReschedule_preserves env _ _ _ _ h
      simp only [] at hp
      exact ⟨hp.1, hp.2.1, hp.2.2.1⟩
    · split at h
      · cases h
      · have hp := thenReschedule_preserves env _ _ _ _ h
        simp only [] at hp
        exact ⟨hp.1, hp.2.1, hp.2.2.1⟩
  · have hp := thenReschedule_preserves env _ _ _ _ h
    exact ⟨hp.1, hp.2.1, hp.2.2.1⟩

/-- The `ChannelAccessFailure`/`Abort` arm records the DSN and (for secure
frames with updated headers) the frame counter and key id of the completed
frame, and nothing later in the completion overwrites them. -/
theorem cafAbortPath_records (env : Env) (frame : TxFrame) (b : Bool) (ctx : Nat)
    (s s' : SenderState) (fx : Effects)
    (hne : frame.isEmpty = false)
    (hsec : frame.securityEnabled = true)
    (hupd : frame.headerUpdated = true)
    (h : cafAbortPath env frame b ctx s = some (s', fx)) :
    s'.neigh.indirectDsn = frame.sequence ∧
    s'.neigh.indirectFrameCounter = frame.frameCounter ∧
    s'.neigh.indirectKeyId = frame.keyId := by
  unfold cafAbortPath at h
  simp only [hne, hsec, hupd, and_self, Bool.false_eq_true, not_false_eq_true,
    if_true] at h
  split at h
  · cases h
  · split at h
    · split at h
      · cases h
      · rename_i s2 fx2 heq1
        have hp2 := thenReschedule_preserves env _ _ _ _ h
        have hp1 := handleSentFrameToNeighbor_preserves env _ _ _ s2 fx2 heq1
        simp only [] at hp1 hp2
        refine ⟨?_, ?_, ?_⟩
        · rw [hp2.1, hp1.1]
        · rw [hp2.2.1, hp1.2.1]
        · rw [hp2.2.2.1, hp1.2.2]
    · have hp := thenReschedule_preserves env _ _ _ _ h
      simp only [] at hp
      exact ⟨hp.1, hp.2.1, hp.2.2.1⟩

end OtModel


open OtModel in
/-- **C4.** First part: on a `ChannelAccessFailure`/`Abort` completion (or a
`NoAck` below the attempt maximum) of a non-empty secure frame with an updated
header, the neighbor's preserved DSN, frame counter and key id afterwards are
exactly the completed frame's values.  Second part: when the frame-request
callback prepares a frame for a peer whose attempt counter is positive, the
frame is marked as a retransmission and carries the preserved DSN; if the
prepared frame is secure and carries no CSL IE the preserved frame counter and
key id are reused, and if it carries a CSL IE they are NOT reused (the
prepared frame's own counter and key id stand). -/
theorem c4_retransmission_preserved :
    (∀ (env : Env) (frame : TxFrame) (err : TxError) (s s' : SenderState) (fx : Effects),
      s.cslTxNeighSet = true →
      frame.isEmpty = false →
      frame.securityEnabled = true →
      frame.headerUpdated = true →
      (err = TxError.channelAccessFailure ∨ err = TxError.abort ∨
        (err = TxError.noAck ∧
          s.neigh.cslTxAttempts + 1 <
            getEnhCslMaxTxAttempts env.defaultMaxTxAttempts s.neigh)) →
      handleSentFrame env frame err s = some (s', fx) →
      s'.neigh.indirectDsn = frame.sequence ∧
      s'.neigh.indirectFrameCounter = frame.frameCounter ∧
      s'.neigh.indirectKeyId = frame.keyId) ∧
    (∀ (env : Env) (prepared : TxFrame) (off : Nat) (s : SenderState) (m : Msg) (d td : Nat),
      s.cslTxNeighSet = true →
      isEnhCslSynchronized s.neigh = true →
      s.neigh.indirectMessage = some m →
      m.mtype = MsgType.ip6 →
      ¬ (m.subType = MsgSubType.mleChildIdRequest ∧ m.linkSecurityEnabled = true) →
      0 < s.neigh.cslTxAttempts →
      getNextCslTransmissionDelay env.radioNow s.neigh.lastRxTimestamp s.neigh.cslPeriod
        s.neigh.cslPhase 0 = some (d, td) →
      d ≤ env.cslFrameRequestAheadUs + kFramePreparationGuardInterval →
      (handleFrameRequest env prepared off s).1 =
        some { markRetransmission s.neigh prepared with
            txDelay := td,
            txDelayBaseTime := s.neigh.lastRxTimestamp % 2 ^ 32,
            csmaCaEnabled := false } ∧
      (markRetransmission s.neigh prepared).isRetransmission = true ∧
      (markRetransmission s.neigh prepared).sequence = s.neigh.indirectDsn ∧
      (prepared.securityEnabled = true → prepared.cslIePresent = false →
        (markRetransmission s.neigh prepared).frameCounter = s.neigh.indirectFrameCounter ∧
        (markRetransmission s.neigh prepared).keyId = s.neigh.indirectKeyId) ∧
      (prepared.cslIePresent = true →
        (markRetransmission s.neigh prepared).frameCounter = prepared.frameCounter ∧
        (markRetransmission s.neigh prepared).keyId = prepared.keyId)) := by
  constructor
  · intro env frame err s s' fx hset hne hsec hupd herr h
    unfold handleSentFrame at h
    rw [if_neg (by simp [hset])] at h
    rcases herr with herr | herr | ⟨herr, hlt⟩
    · subst herr
      simp only [handleSentFrameInner] at h
      exact cafAbortPath_records env frame false _ _ s' fx hne hsec hupd h
    · subst herr
      simp only [handleSentFrameInner] at h
      exact cafAbortPath_records env frame false _ _ s' fx hne hsec hupd h
    · subst herr
      simp only [handleSentFrameInner] at h
      split at h
      · cases h
      · split at h
        · rename_i hcond
          exfalso
          by_cases h0 : s.neigh.cslMaxTxAttempts = 0
          · simp [getEnhCslMaxTxAttempts, h0] at hcond hlt
            omega
          · simp [getEnhCslMaxTxAttempts, h0] at hcond hlt
            omega
        · exact cafAbortPath_records env frame false _ _ s' fx hne hsec hupd h
  · intro env prepared off s m d td hset hsync hmsg hip6 hncid hatt hdel hd
    refine ⟨?_, ?_, ?_, ?_, ?_⟩
    · unfold handleFrameRequest
      rw [if_neg (by simp [hset])]
      rw [if_neg (by simp [hsync])]
      simp only [hmsg, hip6]
      rw [if_neg hncid]
      rw [show getNextCslTransmissionDelay env.radioNow s.neigh.lastRxTimestamp
          s.neigh.cslPeriod s.neigh.cslPhase 0 = some (d, td) from hdel]
      simp only []
      rw [if_neg (by omega)]
    · simp only [markRetransmission]
      rw [if_pos hatt]
      split <;> rfl
    · simp only [markRetransmission]
      rw [if_pos hatt]
      split <;> rfl
    · intro hpsec hpcsl
      simp only [markRetransmission]
      rw [if_pos hatt]
      rw [if_pos (by simp [hpsec, hpcsl])]
      exact ⟨rfl, rfl⟩
    · intro hpcsl
      simp only [markRetransmission]
      rw [if_pos hatt]
      rw [if_neg (by simp [hpcsl])]
      exact ⟨rfl, rfl⟩


open OtModel in
/-- Witness for C4, following S5.  First part at a `ChannelAccessFailure`
completion of a secure frame with sequence 42, frame counter 100, key id 3:
the neighbor's preserved values become exactly (42, 100, 3).  Second part at a
peer with attempt counter 1 and preserved values (42, 100, 3): the prepared
secure frame without a CSL IE is marked as a retransmission and reuses them;
the frame handed to MAC is the marked frame with the CSL timing fields set. -/
theorem c4_retransmission_preserved_witness :
    (OtModel.handleSentFrame ⟨true, [], 0, 2000, 4⟩
        ⟨false, 42, 100, 3, true, true, false, false, 0, 0, true⟩
        OtModel.TxError.channelAccessFailure
        ⟨⟨0, true, 3, 500, 0, 0, 0, 0, 0,
          some ⟨MsgType.ip6, MsgSubType.otherSubType, true, 50, false⟩, 0, 0⟩,
          true, Option.none, 0⟩ =
      some (⟨⟨0, true, 3, 500, 0, 0, 42, 3, 100,
          some ⟨MsgType.ip6, MsgSubType.otherSubType, true, 50, false⟩, 0, 0⟩,
          true, Option.none, 0⟩, OtModel.noEffects)) ∧
    ((⟨⟨0, true, 3, 500, 0, 0, 42, 3, 100,
        some ⟨MsgType.ip6, MsgSubType.otherSubType, true, 50, false⟩, 0, 0⟩,
        true, Option.none, 0⟩ : SenderState).neigh.indirectDsn = 42 ∧
      (⟨⟨0, true, 3, 500, 0, 0, 42, 3, 100,
        some ⟨MsgType.ip6, MsgSubType.otherSubType, true, 50, false⟩, 0, 0⟩,
        true, Option.none, 0⟩ : SenderState).neigh.indirectFrameCounter = 100 ∧
      (⟨⟨0, true, 3, 500, 0, 0, 42, 3, 100,
        some ⟨MsgType.ip6, MsgSubType.otherSubType, true, 50, false⟩, 0, 0⟩,
        true, Option.none, 0⟩ : SenderState).neigh.indirectKeyId = 3) ∧
    ((OtModel.handleFrameRequest ⟨true, [], 0, 2000, 4⟩
        ⟨false, 7, 9, 9, true, true, false, false, 0, 0, true⟩ 10
        ⟨⟨1, true, 3, 500, 0, 0, 42, 3, 100,
          some ⟨MsgType.ip6, MsgSubType.otherSubType, true, 50, false⟩, 1, 0⟩,
          true, Option.none, 0⟩).1 =
      some { OtModel.markRetransmission
          ⟨1, true, 3, 500, 0, 0, 42, 3, 100,
            some ⟨MsgType.ip6, MsgSubType.otherSubType, true, 50, false⟩, 1, 0⟩
          ⟨false, 7, 9, 9, true, true, false, false, 0, 0, true⟩ with
        txDelay := 0, txDelayBaseTime := 0 % 2 ^ 32, csmaCaEnabled := false } ∧
      (OtModel.markRetransmission
        ⟨1, true, 3, 500, 0, 0, 42, 3, 100,
          some ⟨MsgType.ip6, MsgSubType.otherSubType, true, 50, false⟩, 1, 0⟩
        ⟨false, 7, 9, 9, true, true, false, false, 0, 0, true⟩).isRetransmission = true ∧
      (OtModel.markRetransmission
        ⟨1, true, 3, 500, 0, 0, 42, 3, 100,
          some ⟨MsgType.ip6, MsgSubType.otherSubType, true, 50, false⟩, 1, 0⟩
        ⟨false, 7, 9, 9, true, true, false, false, 0, 0, true⟩).sequence = 42 ∧
      (OtModel.markRetransmission
        ⟨1, true, 3, 500, 0, 0, 42, 3, 100,
          some ⟨MsgType.ip6, MsgSubType.otherSubType, true, 50, false⟩, 1, 0⟩
        ⟨false, 7, 9, 9, true, true, false, false, 0, 0, true⟩).frameCounter = 100 ∧
      (OtModel.markRetransmission
        ⟨1, true, 3, 500, 0, 0, 42, 3, 100,
          some ⟨MsgType.ip6, MsgSubType.otherSubType, true, 50, false⟩, 1, 0⟩
        ⟨false, 7, 9, 9, true, true, false, false, 0, 0, true⟩).keyId = 3) := by
  have hdel : OtModel.getNextCslTransmissionDelay 0 0 500 0 0 = some (0, 0) := by
    simp [OtModel.getNextCslTransmissionDelay, OtModel.kUsPerTenSymbols,
      OtModel.bumpWindow_of_ge]
  have hA := (c4_retransmission_preserved.1 ⟨true, [], 0, 2000, 4⟩
    ⟨false, 42, 100, 3, true, true, false, false, 0, 0, true⟩
    OtModel.TxError.channelAccessFailure
    ⟨⟨0, true, 3, 500, 0, 0, 0, 0, 0,
      some ⟨MsgType.ip6, MsgSubType.otherSubType, true, 50, false⟩, 0, 0⟩,
      true, Option.none, 0⟩
    ⟨⟨0, true, 3, 500, 0, 0, 42, 3, 100,
      some ⟨MsgType.ip6, MsgSubType.otherSubType, true, 50, false⟩, 0, 0⟩,
      true, Option.none, 0⟩ OtModel.noEffects
    rfl rfl rfl rfl (Or.inl rfl) (by decide))
  have hB := (c4_retransmission_preserved.2 ⟨true, [], 0, 2000, 4⟩
    ⟨false, 7, 9, 9, true, true, false, false, 0, 0, true⟩ 10
    ⟨⟨1, true, 3, 500, 0, 0, 42, 3, 100,
      some ⟨MsgType.ip6, MsgSubType.otherSubType, true, 50, false⟩, 1, 0⟩,
      true, Option.none, 0⟩
    ⟨MsgType.ip6, MsgSubType.otherSubType, true, 50, false⟩ 0 0
    rfl rfl rfl rfl (by decide) (by decide) hdel (by decide))
  exact ⟨by decide, ⟨hA.1, hA.2.1, hA.2.2⟩,
    hB.1, hB.2.1, hB.2.2.1, (hB.2.2.2.1 rfl rfl).1, (hB.2.2.2.1 rfl rfl).2⟩

namespace OtModel

/-- A burst whose sequence flag is cleared is inert. -/
theorem runBurst_of_stopped (fuel : Nat) (s : BurstState) (h : s.sequenceOngoing = false) :
    runBurst fuel s = s := by
  cases fuel with
  | zero => rfl
  | succ fuel => simp [runBurst, h]

/-- Counting lemma for a running burst: from a state whose current slot is
already armed, the burst schedules `⌈R / I⌉ − 1` further frames, where `R` is
the time left to the end of the burst, and then clears the sequence flag. -/
theorem runBurst_spec (fuel : Nat) : ∀ (s : BurstState),
    0 < s.intervalUs →
    s.txRequestAheadTimeUs ≤ s.txTimeUs →
    s.sequenceOngoing = true →
    s.txTimeUs < s.txEndTimeUs →
    s.txEndTimeUs - s.txTimeUs ≤ fuel * s.intervalUs →
    (runBurst fuel s).framesScheduled =
      s.framesScheduled +
        (s.txEndTimeUs - s.txTimeUs + s.intervalUs - 1) / s.intervalUs - 1 ∧
    (runBurst fuel s).sequenceOngoing = false := by
  induction fuel with
  | zero =>
    intro s h1 h2 h3 h4 h5
    exact absurd h5 (by simp; omega)
  | succ fuel ih =>
    intro s h1 h2 h3 h4 h5
    have hstep : runBurst (fuel + 1) s =
        runBurst fuel (scheduleNext false (s.txTimeUs - s.txRequestAheadTimeUs) s) := by
      simp [runBurst, h3]
    have htmax : max (s.txTimeUs + s.intervalUs)
        (s.txTimeUs - s.txRequestAheadTimeUs + s.txRequestAheadTimeUs) =
        s.txTimeUs + s.intervalUs := by omega
    by_cases hend : s.txEndTimeUs ≤ s.txTimeUs + s.intervalUs
    · have hs1 : scheduleNext false (s.txTimeUs - s.txRequestAheadTimeUs) s =
          { s with txTimeUs := s.txTimeUs + s.intervalUs, sequenceOngoing := false } := by
        unfold scheduleNext
        simp only [Bool.false_eq_true, if_false, htmax]
        rw [if_pos hend]
      have hq : (s.txEndTimeUs - s.txTimeUs + s.intervalUs - 1) / s.intervalUs = 1 := by
        rw [show s.txEndTimeUs - s.txTimeUs + s.intervalUs - 1 =
          (s.txEndTimeUs - s.txTimeUs - 1) + s.intervalUs by omega]
        rw [Nat.add_div_right _ h1]
        rw [Nat.div_eq_of_lt (by omega)]
      rw [hstep, hs1, runBurst_of_stopped fuel _ rfl]
      exact ⟨by simp [hq], rfl⟩
    · have hs1 : scheduleNext false (s.txTimeUs - s.txRequestAheadTimeUs) s =
          { s with
              txTimeUs := s.txTimeUs + s.intervalUs,
              framesScheduled := s.framesScheduled + 1,
              armedSlots := s.armedSlots ++ [s.txTimeUs + s.intervalUs] } := by
        unfold scheduleNext
        simp only [Bool.false_eq_true, if_false, htmax]
        rw [if_neg hend]
      have hmul : (fuel + 1) * s.intervalUs = fuel * s.intervalUs + s.intervalUs :=
        Nat.succ_mul fuel s.intervalUs
      obtain ⟨hf, ho⟩ := ih
        { s with
            txTimeUs := s.txTimeUs + s.intervalUs,
            framesScheduled := s.framesScheduled + 1,
            armedSlots := s.armedSlots ++ [s.txTimeUs + s.intervalUs] }
        (by simpa using h1) (by simp; omega) h3 (by simp; omega)
        (by simp; omega)
      rw [hstep, hs1]
      refine ⟨?_, ho⟩
      rw [hf]
      simp only []
      have hIR : s.intervalUs < s.txEndTimeUs - s.txTimeUs := by omega
      have hsplit : s.txEndTimeUs - s.txTimeUs + s.intervalUs - 1 =
          (s.txEndTimeUs - (s.txTimeUs + s.intervalUs) + s.intervalUs - 1) +
            s.intervalUs := by omega
      rw [hsplit, Nat.add_div_right _ h1]
      have hone : 1 ≤ (s.txEndTimeUs - (s.txTimeUs + s.intervalUs) + s.intervalUs - 1) /
          s.intervalUs := by
        rw [Nat.le_div_iff_mul_le h1]
        omega
      omega

/-- `WakeUp` arms the first frame at `now + ahead` and leaves the sequence
running (the burst end lies at least one interval ahead). -/
theorem wakeUp_start (nowUs aheadUs intervalUs durationMs : Nat) (hI : 0 < intervalUs) :
    wakeUp nowUs aheadUs intervalUs durationMs =
      { txTimeUs := nowUs + aheadUs,
        txEndTimeUs := nowUs + aheadUs + durationMs * 1000 + intervalUs,
        intervalUs := intervalUs,
        txRequestAheadTimeUs := aheadUs,
        sequenceOngoing := true,
        framesScheduled := 1,
        armedSlots := [nowUs + aheadUs] } := by
  unfold wakeUp scheduleNext
  simp only [if_true]
  rw [if_neg (by simp; omega)]
  simp

end OtModel

open OtModel in
/-- **C7 (amended).** Under the no-slip assumption, a burst started by
`WakeUp(target, interval_us, duration_ms)` schedules exactly
`⌈(duration_ms·1000 + interval_us) / interval_us⌉` frames (written below with
`⌈n/i⌉ = (n + i − 1) / i`) and the next `ScheduleNext` call after the last
slot clears `sequence_ongoing`.  This equals the claim's floor formula
`⌊(duration_ms·1000 + interval_us) / interval_us⌋` exactly when `interval_us`
divides `duration_ms·1000`, as in the S4 instance (6 slots). -/
theorem c7_burst_count (nowUs aheadUs intervalUs durationMs fuel : Nat)
    (hI : 0 < intervalUs)
    (hfuel : durationMs * 1000 + intervalUs ≤ fuel * intervalUs) :
    (runBurst fuel (wakeUp nowUs aheadUs intervalUs durationMs)).framesScheduled =
      (durationMs * 1000 + intervalUs + intervalUs - 1) / intervalUs ∧
    (runBurst fuel (wakeUp nowUs aheadUs intervalUs durationMs)).sequenceOngoing = false := by
  rw [wakeUp_start nowUs aheadUs intervalUs durationMs hI]
  obtain ⟨hf, ho⟩ := runBurst_spec fuel
    { txTimeUs := nowUs + aheadUs,
      txEndTimeUs := nowUs + aheadUs + durationMs * 1000 + intervalUs,
      intervalUs := intervalUs,
      txRequestAheadTimeUs := aheadUs,
      sequenceOngoing := true,
      framesScheduled := 1,
      armedSlots := [nowUs + aheadUs] }
    (by simpa using hI) (by simp) rfl (by simp; omega) (by simp; omega)
  refine ⟨?_, ho⟩
  rw [hf]
  simp only []
  have hR : nowUs + aheadUs + durationMs * 1000 + intervalUs - (nowUs + aheadUs) =
      durationMs * 1000 + intervalUs := by omega
  rw [hR]
  have hone : 1 ≤ (durationMs * 1000 + intervalUs + intervalUs - 1) / intervalUs := by
    rw [Nat.le_div_iff_mul_le hI]
    omega
  omega

open OtModel in
/-- **C7 (counterexample).** With `interval_us = 3000` and `duration_ms = 1`
the burst schedules two frames (slots at start and start + 3000) before the
flag clears, while the claim's floor formula gives
`⌊(1000 + 3000)/3000⌋ = 1`. -/
theorem c7_floor_formula_cex :
    (runBurst 5 (wakeUp 0 0 3000 1)).framesScheduled = 2 ∧
    (runBurst 5 (wakeUp 0 0 3000 1)).sequenceOngoing = false ∧
    (runBurst 5 (wakeUp 0 0 3000 1)).armedSlots = [0, 3000] ∧
    (1 * 1000 + 3000 : Nat) / 3000 = 1 ∧
    ¬ (runBurst 5 (wakeUp 0 0 3000 1)).framesScheduled = (1 * 1000 + 3000) / 3000 := by
  decide

/-- Witness for C7 (amended): the S4 instance.  `interval_us = 10000`,
`duration_ms = 50`, `ahead_us = 1500`: six slots at start + 1500, 11500,
21500, 31500, 41500, 51500, and the burst then stops. -/
theorem c7_burst_count_witness :
    (0 : Nat) < 10000 ∧
    (50 * 1000 + 10000 : Nat) ≤ 7 * 10000 ∧
    (OtModel.runBurst 7 (OtModel.wakeUp 0 1500 10000 50)).framesScheduled =
      (50 * 1000 + 10000 + 10000 - 1) / 10000 ∧
    (OtModel.runBurst 7 (OtModel.wakeUp 0 1500 10000 50)).sequenceOngoing = false ∧
    (50 * 1000 + 10000 + 10000 - 1 : Nat) / 10000 = 6 ∧
    (OtModel.runBurst 7 (OtModel.wakeUp 0 1500 10000 50)).armedSlots =
      [1500, 11500, 21500, 31500, 41500, 51500] :=
  ⟨by decide, by decide,
    (c7_burst_count 0 1500 10000 50 7 (by decide) (by decide)).1,
    (c7_burst_count 0 1500 10000 50 7 (by decide) (by decide)).2,
    by decide, by decide⟩

/-- **C8 (counterexample).** With `interval_us = 10000` the code writes a
Rendezvous Time IE of 80 (`(10000 − 132·32)/2 + 10000 = 12888`, then
`12888 / 160`), while the claim's formula with the per-length factor equal to
the symbol duration (16 µs) gives `(10000 + (10000 − 132·16)/2) / 160 = 87`:
the per-length factor in the code is the octet duration, not the symbol
duration. -/
theorem c8_symbol_factor_cex :
    OtModel.rendezvousTimeIe 10000 = 80 ∧
    OtModel.specRendezvousTimeIe 10000 = 87 ∧
    ¬ OtModel.rendezvousTimeIe 10000 = OtModel.specRendezvousTimeIe 10000 := by
  decide

open OtModel in
/-- **C8 (amended).** For every wake-up frame built by the scheduler with
`interval_us` at least the on-air time of one wake-up frame plus one Parent
Request (no 32-bit underflow) and within the 16-bit range of `mIntervalUs`,
the Rendezvous Time IE value equals `rendezvous_us / TEN_SYMBOLS_US` where
`rendezvous_us = interval_us + (interval_us − (WAKEUP_FRAME_LEN +
PARENT_REQ_LEN)·OCTET_DURATION) / 2`, the per-length factor being the octet
duration (32 µs = two symbol durations), in exact integer arithmetic. -/
theorem c8_rendezvous_octet_duration (intervalUs : Nat)
    (hlo : (kWakeupFrameLength + kParentRequestLength) * kOctetDuration ≤ intervalUs)
    (hhi : intervalUs < 2 ^ 16) :
    rendezvousTimeIe intervalUs =
      (intervalUs + (intervalUs -
        (kWakeupFrameLength + kParentRequestLength) * kOctetDuration) / 2) /
        kUsPerTenSymbols := by
  have hc : (kWakeupFrameLength + kParentRequestLength) * kOctetDuration = 4224 := by
    decide
  rw [hc] at hlo ⊢
  unfold rendezvousTimeIe
  rw [hc]
  simp only []
  have h1 : (intervalUs + 2 ^ 32 - 4224) % 2 ^ 32 = intervalUs - 4224 := by
    rw [show intervalUs + 2 ^ 32 - 4224 = (intervalUs - 4224) + 2 ^ 32 by omega]
    rw [Nat.add_mod_right]
    exact Nat.mod_eq_of_lt (by omega)
  rw [h1]
  have h2 : ((intervalUs - 4224) / 2 + intervalUs) % 2 ^ 32 =
      (intervalUs - 4224) / 2 + intervalUs := by
    apply Nat.mod_eq_of_lt
    have hhalf : (intervalUs - 4224) / 2 ≤ intervalUs :=
      Nat.le_trans (Nat.div_le_self _ _) (by omega)
    omega
  rw [h2, Nat.add_comm]

/-- Witness for C8 (amended) at `interval_us = 10000`: the IE value is
`(10000 + (10000 − 4224)/2) / 160 = 80`. -/
theorem c8_rendezvous_octet_duration_witness :
    (OtModel.kWakeupFrameLength + OtModel.kParentRequestLength) * OtModel.kOctetDuration ≤
      10000 ∧
    (10000 : Nat) < 2 ^ 16 ∧
    OtModel.rendezvousTimeIe 10000 =
      (10000 + (10000 - (OtModel.kWakeupFrameLength + OtModel.kParentRequestLength) *
        OtModel.kOctetDuration) / 2) / OtModel.kUsPerTenSymbols ∧
    OtModel.rendezvousTimeIe 10000 = 80 :=
  ⟨by decide, by decide,
    c8_rendezvous_octet_duration 10000 (by decide) (by decide),
    by decide⟩
